import Mathlib

/-!
A shallow embedding, in Lean 4, of the decision pipeline of the
healthcare-platform demo (Python sources under `src/`): the context
engineer, the RAG retrieval with its keyword fallback, the triage
scorer, the physician matcher, the scheduler, the workflow generator
and the coordinating agent system.

Modelling conventions:
* Python strings are modelled as `List Char` (`PyStr`); the Python
  substring test `a in b` is `strHas`, and `str.lower` is `lowerStr`.
* Python `int` is `Int`; Python `float` literals that the code uses
  (0.2, 0.3, 0.5, 0.8, ratings) are modelled as exact rationals.
* Python dicts used as records become structures; `dict.get(k, d)`
  on an optional field becomes `Option.getD`.
* The external services (Qdrant similarity search, the LLM) and the
  runtime-dependent values (clock, `uuid`, the randomized `hash`) are
  passed in as explicit parameters; `none` for the search backend
  models both an absent client and a raised exception, the two cases
  the code treats identically.
* A Python mutable list built by appending in a loop becomes a
  `List.foldl` that appends; an uncaught Python exception becomes the
  `Except.error` case of the embedded function.
-/

/-- Python strings, modelled as lists of characters. -/
abbrev PyStr := List Char

/-- Python `str.lower()`. -/
def lowerStr (s : PyStr) : PyStr := s.map Char.toLower

/-- Python substring containment `needle in haystack`. -/
def strHas (needle haystack : PyStr) : Bool :=
  (List.range (haystack.length + 1)).any fun i => needle.isPrefixOf (haystack.drop i)

/-- Python space-join of a list of strings. -/
def joinSpace (parts : List PyStr) : PyStr := List.intercalate " ".data parts

/-! ## Data model (`src/models/enums.py`, `src/models/patient.py`) -/

/-- Source: `UrgencyLevel` enumeration. -/
inductive UrgencyLevel where
  | critical
  | urgent
  | semiUrgent
  | standard
  | nonUrgent
  deriving DecidableEq, Repr

/-- The `.value` string of each `UrgencyLevel` member. -/
def UrgencyLevel.val : UrgencyLevel → PyStr
  | .critical => "Critical Emergency".data
  | .urgent => "Urgent".data
  | .semiUrgent => "Semi-Urgent".data
  | .standard => "Standard".data
  | .nonUrgent => "Non-Urgent".data

/-- Source: `Patient` dataclass. `created_at` is a clock value in minutes. -/
structure Patient where
  patient_id : PyStr
  name : PyStr
  age : Int
  gender : PyStr
  location : PyStr
  phone : PyStr
  email : PyStr
  insurance : PyStr
  emergency_contact : PyStr
  medical_history : List PyStr
  current_medications : List PyStr
  allergies : List PyStr
  family_history : List PyStr
  lifestyle_factors : List (PyStr × PyStr)
  created_at : Int
  deriving DecidableEq, Repr

/-- Source: `SymptomAssessment` dataclass. -/
structure SymptomAssessment where
  patient_id : PyStr
  primary_complaint : PyStr
  symptoms : List PyStr
  duration : PyStr
  severity : Int
  associated_symptoms : List PyStr
  aggravating_factors : List PyStr
  relieving_factors : List PyStr
  previous_episodes : Bool
  assessment_id : PyStr
  created_at : Int
  deriving DecidableEq, Repr

/-- Source: `TriageResult` dataclass. `confidence_score` as an exact rational. -/
structure TriageResult where
  assessment_id : PyStr
  urgency_level : UrgencyLevel
  recommended_specialty : PyStr
  risk_factors : List PyStr
  clinical_reasoning : PyStr
  confidence_score : ℚ
  requires_emergency : Bool
  estimated_wait_time : PyStr
  deriving DecidableEq, Repr

/-- Source: `PhysicianRecommendation` dataclass. `next_available` is the offset,
in minutes, that `_calculate_next_availability` adds to the current time. -/
structure PhysicianRecommendation where
  physician_id : PyStr
  name : PyStr
  specialty : PyStr
  location : PyStr
  availability : PyStr
  rating : ℚ
  distance_km : ℚ
  accepts_insurance : Bool
  next_available : Int
  deriving DecidableEq, Repr

/-- A retrieved knowledge dict. The code reads `specialty`, `urgency` and
`score` through `dict.get`, so those keys are optional. -/
structure KnowledgeSnippet where
  title : PyStr
  content : PyStr
  specialty : Option PyStr
  urgency : Option PyStr
  score : Option ℚ
  deriving DecidableEq, Repr

/-- An entry of `PHYSICIANS_DATABASE` in `src/config/settings.py`. -/
structure Physician where
  id : PyStr
  name : PyStr
  specialty : PyStr
  location : PyStr
  availability : PyStr
  rating : ℚ
  accepts_insurance : List PyStr
  deriving DecidableEq, Repr

/-! ## Configuration (`src/config/settings.py`) -/

/-- Source: `PHYSICIANS_DATABASE`. -/
def PHYSICIANS_DATABASE : List Physician := [
  { id := "card_001".data, name := "Sarah Johnson".data, specialty := "Cardiology".data,
    location := "New York, NY".data, availability := "Mon-Fri 9AM-5PM".data, rating := 24/5,
    accepts_insurance := ["Aetna".data, "Blue Cross".data, "Cigna".data, "UnitedHealth".data] },
  { id := "neuro_001".data, name := "Michael Chen".data, specialty := "Neurology".data,
    location := "Boston, MA".data, availability := "Mon-Wed-Fri 8AM-4PM".data, rating := 49/10,
    accepts_insurance := ["Blue Cross".data, "Cigna".data, "Medicare".data] },
  { id := "gastro_001".data, name := "Emily Rodriguez".data, specialty := "Gastroenterology".data,
    location := "Chicago, IL".data, availability := "Tue-Thu 10AM-6PM".data, rating := 47/10,
    accepts_insurance := ["Aetna".data, "UnitedHealth".data, "Humana".data] },
  { id := "derm_001".data, name := "David Kim".data, specialty := "Dermatology".data,
    location := "Los Angeles, CA".data, availability := "Mon-Fri 9AM-3PM".data, rating := 23/5,
    accepts_insurance := ["Blue Cross".data, "Aetna".data, "Kaiser".data] },
  { id := "ortho_001".data, name := "Jessica Brown".data, specialty := "Orthopedics".data,
    location := "Houston, TX".data, availability := "Mon-Thu 8AM-5PM".data, rating := 24/5,
    accepts_insurance := ["UnitedHealth".data, "Cigna".data, "Blue Cross".data] },
  { id := "general_001".data, name := "Robert Wilson".data, specialty := "General Medicine".data,
    location := "Miami, FL".data, availability := "Mon-Fri 8AM-6PM".data, rating := 9/2,
    accepts_insurance := ["Aetna".data, "Blue Cross".data, "Medicaid".data] }]

/-- Source: `SPECIALTY_KEYWORDS`, in dict insertion order. -/
def SPECIALTY_KEYWORDS : List (PyStr × List PyStr) := [
  ("cardiology".data, ["chest pain".data, "heart".data, "palpitations".data, "shortness of breath".data]),
  ("neurology".data, ["headache".data, "dizziness".data, "numbness".data, "seizure".data, "stroke".data]),
  ("gastroenterology".data, ["abdominal pain".data, "nausea".data, "vomiting".data, "diarrhea".data]),
  ("dermatology".data, ["rash".data, "skin".data, "itching".data, "lesion".data]),
  ("orthopedics".data, ["joint pain".data, "back pain".data, "fracture".data, "injury".data]),
  ("pulmonology".data, ["cough".data, "breathing".data, "chest".data, "asthma".data]),
  ("endocrinology".data, ["diabetes".data, "thyroid".data, "hormone".data]),
  ("psychiatry".data, ["anxiety".data, "depression".data, "mood".data, "mental health".data])]

/-- The city keys of `LOCATION_COORDS` (the coordinate values are never
used by the pipeline, only the key list). -/
def LOCATION_CITIES : List PyStr :=
  ["New York".data, "Boston".data, "Chicago".data, "Los Angeles".data, "Houston".data, "Miami".data]

/-! ## Context engineer (`src/core/context_engine.py`) -/

/-- The `risk` sub-dict returned by `_calculate_risk_factors`. -/
structure RiskContext where
  risk_factors : List PyStr
  risk_score : Nat
  high_risk : Bool
  deriving DecidableEq, Repr

/-- The `demographic` sub-dict of the comprehensive context. -/
structure DemographicContext where
  age : Int
  gender : PyStr
  location : PyStr
  deriving DecidableEq, Repr

/-- The `medical` sub-dict of the comprehensive context. -/
structure MedicalContext where
  chronic_conditions : List PyStr
  current_medications : List PyStr
  allergies : List PyStr
  family_history : List PyStr
  deriving DecidableEq, Repr

/-- The `symptom` sub-dict of the comprehensive context. -/
structure SymptomContext where
  primary_complaint : PyStr
  symptoms : List PyStr
  severity : Int
  duration : PyStr
  associated_symptoms : List PyStr
  deriving DecidableEq, Repr

/-- The `temporal` sub-dict; its fields come from the wall clock, so they
are supplied from outside the pipeline. -/
structure TemporalContext where
  time_of_day : PyStr
  day_of_week : PyStr
  season : PyStr
  deriving DecidableEq, Repr

/-- The dict returned by `_assess_location_access`. -/
structure LocationAccess where
  access_level : PyStr
  specialty_available : Bool
  deriving DecidableEq, Repr

/-- The `social` sub-dict of the comprehensive context. -/
structure SocialContext where
  insurance_status : PyStr
  location_access : LocationAccess
  emergency_support : Bool
  deriving DecidableEq, Repr

/-- The comprehensive context dict built by `build_comprehensive_context`
(the consistency-validation result is computed but not placed in the dict). -/
structure Context where
  demographic : DemographicContext
  medical : MedicalContext
  symptom : SymptomContext
  risk : RiskContext
  temporal : TemporalContext
  social : SocialContext
  deriving DecidableEq, Repr

/-- Source: `high_risk_conditions` in `_calculate_risk_factors`. -/
def high_risk_conditions : List PyStr :=
  ["diabetes".data, "heart disease".data, "hypertension".data, "cancer".data]

/-- Source: `high_risk_meds` in `_calculate_risk_factors`. -/
def high_risk_meds : List PyStr := ["warfarin".data, "insulin".data, "chemotherapy".data]

/-- Source: `red_flag_symptoms` in `_calculate_risk_factors`. -/
def red_flag_symptoms : List PyStr :=
  ["chest pain".data, "severe headache".data, "difficulty breathing".data]

/-- The per-condition test of `_calculate_risk_factors`. -/
def has_high_risk_condition (condition : PyStr) : Bool :=
  high_risk_conditions.any (fun risk => strHas risk (lowerStr condition))

/-- The per-medication test of `_calculate_risk_factors`. -/
def has_high_risk_med (med : PyStr) : Bool :=
  high_risk_meds.any (fun risk => strHas risk (lowerStr med))

/-- The per-symptom red-flag test of `_calculate_risk_factors`. -/
def has_red_flag_symptom (symptom : PyStr) : Bool :=
  red_flag_symptoms.any (fun flag => strHas flag (lowerStr symptom))

/-- Source: `MedicalContextEngineer._calculate_risk_factors`: the mutable
`risk_factors` list grows by appends, here threaded through folds. -/
def calculate_risk_factors (patient : Patient) (assessment : SymptomAssessment) : RiskContext :=
  let rf0 : List PyStr := []
  let rf1 := if patient.age > 65 then rf0 ++ ["Advanced age".data]
             else if patient.age < 2 then rf0 ++ ["Pediatric patient".data]
             else rf0
  let rf2 := patient.medical_history.foldl (fun acc condition =>
      if has_high_risk_condition condition
      then acc ++ ["History of ".data ++ condition] else acc) rf1
  let rf3 := patient.current_medications.foldl (fun acc med =>
      if has_high_risk_med med
      then acc ++ ["High-risk medication: ".data ++ med] else acc) rf2
  let rf4 := if assessment.severity ≥ 8 then rf3 ++ ["High severity symptoms".data] else rf3
  let rf5 := assessment.symptoms.foldl (fun acc symptom =>
      if has_red_flag_symptom symptom
      then acc ++ ["Red flag symptom: ".data ++ symptom] else acc) rf4
  { risk_factors := rf5, risk_score := rf5.length, high_risk := decide (rf5.length ≥ 3) }

/-- Source: `_assess_location_access`: the urban-area check. -/
def assess_location_access (location : PyStr) : LocationAccess :=
  let urban_areas := ["New York".data, "Los Angeles".data, "Chicago".data, "Boston".data]
  if urban_areas.any (fun city => strHas city location)
  then { access_level := "High".data, specialty_available := true }
  else { access_level := "Medium".data, specialty_available := false }

/-- The consistency-validation result of `_validate_context_consistency`. -/
structure ValidationResult where
  status : PyStr
  issues : List PyStr
  consistency_score : ℚ
  deriving DecidableEq, Repr

/-- Source: `_validate_context_consistency` (computed by the engineer, printed, and
not included in the returned context). -/
def validate_context_consistency (context : Context) : ValidationResult :=
  let issues0 : List PyStr := []
  let adult_meds := ["warfarin".data, "metformin".data]
  let issues1 :=
    if context.demographic.age < 18 then
      context.medical.current_medications.foldl (fun acc med =>
        if adult_meds.any (fun adult_med => strHas adult_med (lowerStr med))
        then acc ++ ["Pediatric patient on adult medication: ".data ++ med] else acc) issues0
    else issues0
  let issues2 :=
    if context.symptom.severity ≥ 9 ∧ strHas "months".data (lowerStr context.symptom.duration)
    then issues1 ++ ["Severe symptoms persisting for months - needs review".data] else issues1
  { status := if issues2 = [] then "Valid".data else "Needs Review".data,
    issues := issues2,
    consistency_score := max 0 (1 - issues2.length * (1/5)) }

/-- Source: `MedicalContextEngineer.build_comprehensive_context`; the temporal
section depends on the wall clock and is passed in. -/
def build_comprehensive_context (patient : Patient) (assessment : SymptomAssessment)
    (temporal : TemporalContext) : Context :=
  { demographic := { age := patient.age, gender := patient.gender, location := patient.location },
    medical := { chronic_conditions := patient.medical_history,
                 current_medications := patient.current_medications,
                 allergies := patient.allergies,
                 family_history := patient.family_history },
    symptom := { primary_complaint := assessment.primary_complaint,
                 symptoms := assessment.symptoms,
                 severity := assessment.severity,
                 duration := assessment.duration,
                 associated_symptoms := assessment.associated_symptoms },
    risk := calculate_risk_factors patient assessment,
    temporal := temporal,
    social := { insurance_status := patient.insurance,
                location_access := assess_location_access patient.location,
                emergency_support := decide (patient.emergency_contact ≠ []) } }

/-! ## RAG system (`src/core/rag_system.py`) -/

/-- The snippet stored under the "chest pain" key of `fallback_knowledge`;
note it carries no `score` key. -/
def chest_pain_entry : KnowledgeSnippet :=
  { title := "Chest Pain Emergency Protocol".data,
    content := "Immediate cardiac evaluation required. Check for STEMI, unstable angina.".data,
    specialty := some "cardiology".data,
    urgency := some "high".data,
    score := none }

/-- The snippet stored under the "headache" key of `fallback_knowledge`. -/
def headache_entry : KnowledgeSnippet :=
  { title := "Headache Assessment".data,
    content := "Evaluate for secondary causes. Consider imaging for red flags.".data,
    specialty := some "neurology".data,
    urgency := some "medium".data,
    score := none }

/-- The snippet stored under the "abdominal pain" key of `fallback_knowledge`. -/
def abdominal_pain_entry : KnowledgeSnippet :=
  { title := "Abdominal Pain Triage".data,
    content := "Rule out surgical emergencies. Consider appendicitis, bowel obstruction.".data,
    specialty := some "general_surgery".data,
    urgency := some "high".data,
    score := none }

/-- The `fallback_knowledge` dict of `_fallback_retrieval`, in insertion
order. -/
def fallback_knowledge : List (PyStr × KnowledgeSnippet) :=
  [("chest pain".data, chest_pain_entry),
   ("headache".data, headache_entry),
   ("abdominal pain".data, abdominal_pain_entry)]

/-- Source: `MedicalKnowledgeRAG._fallback_retrieval`. A keyword hit copies the
table entry and adds `score: 0.8`; when nothing hits, the first raw table
value (no `score` key) is returned alone. -/
def fallback_retrieval (symptoms : PyStr) : List KnowledgeSnippet :=
  let symptoms_lower := lowerStr symptoms
  let retrieved := fallback_knowledge.foldl (fun acc kv =>
    if strHas kv.1 symptoms_lower then acc ++ [{ kv.2 with score := some (4/5) }] else acc) []
  if retrieved ≠ [] then retrieved
  else [chest_pain_entry]

/-- Source: `MedicalKnowledgeRAG.retrieve_medical_knowledge`. `backend = none`
models the two cases the code treats alike — `self.client` is `None`, or
the embedding/search call raises — both of which fall back;
`backend = some results` models a successful Qdrant search already mapped
to snippets. The demographic hint is only printed, never used. -/
def retrieve_medical_knowledge (backend : Option (List KnowledgeSnippet))
    (symptoms : PyStr) : List KnowledgeSnippet :=
  match backend with
  | none => fallback_retrieval symptoms
  | some results => results

/-! ## Triage agent (`src/agents/triage_agent.py`) -/

/-- The `red_flags` list of `_determine_urgency`. -/
def red_flags_triage : List PyStr :=
  ["chest pain".data, "difficulty breathing".data, "severe headache".data,
   "loss of consciousness".data]

/-- The per-symptom red-flag test of `_determine_urgency`. -/
def has_triage_red_flag (symptom : PyStr) : Bool :=
  red_flags_triage.any (fun flag => strHas flag (lowerStr symptom))

/-- The accumulation of `urgency_score` in `_determine_urgency`, before the
score is mapped to a level. -/
def urgency_score (assessment : SymptomAssessment) (context : Context)
    (knowledge : List KnowledgeSnippet) : Int :=
  let s0 : Int := 0
  let s1 := s0 + assessment.severity * 10
  let s2 := s1 + (context.risk.risk_factors.length : Int) * 15
  let s3 := if context.demographic.age < 2 ∨ context.demographic.age > 80 then s2 + 20 else s2
  let s4 := assessment.symptoms.foldl (fun acc symptom =>
      if has_triage_red_flag symptom then acc + 30 else acc) s3
  let s5 := knowledge.foldl (fun acc kb =>
      if kb.urgency = some "high".data then acc + 25
      else if kb.urgency = some "medium".data then acc + 15
      else acc) s4
  let s6 := if strHas "sudden".data (lowerStr assessment.duration) ∨
               strHas "acute".data (lowerStr assessment.duration)
            then s5 + 20 else s5
  s6

/-- The `if/elif` chain at the end of `_determine_urgency` mapping the
integer score to an `UrgencyLevel`. -/
def score_to_level (score : Int) : UrgencyLevel :=
  if score ≥ 100 then .critical
  else if score ≥ 70 then .urgent
  else if score ≥ 50 then .semiUrgent
  else if score ≥ 30 then .standard
  else .nonUrgent

/-- Source: `TriageAgent._determine_urgency`. -/
def determine_urgency (assessment : SymptomAssessment) (context : Context)
    (knowledge : List KnowledgeSnippet) : UrgencyLevel :=
  score_to_level (urgency_score assessment context knowledge)

/-- The `spec or "general"` read `kb.get("specialty", "general")` of
`_recommend_specialty`. -/
def tag_or_general (kb : KnowledgeSnippet) : PyStr := kb.specialty.getD "general".data

/-- The lowercased complaint-plus-symptom text `_recommend_specialty`
scans in its fallback branch. -/
def symptom_text (assessment : SymptomAssessment) : PyStr :=
  lowerStr (assessment.primary_complaint ++ " ".data ++ joinSpace assessment.symptoms)

/-- Whether a `SPECIALTY_KEYWORDS` entry has any keyword occurring in the
complaint-plus-symptom text. -/
def specialty_keyword_hit (assessment : SymptomAssessment) (sk : PyStr × List PyStr) : Bool :=
  sk.2.any (fun keyword => strHas keyword (symptom_text assessment))

/-- One step of building the Python counting dict
`specialty_counts[spec] = specialty_counts.get(spec, 0) + 1`: the dict is
an association list kept in key-insertion order. -/
def bumpCount (d : List (PyStr × Nat)) (k : PyStr) : List (PyStr × Nat) :=
  match d with
  | [] => [(k, 1)]
  | (k1, v) :: rest => if k1 = k then (k1, v + 1) :: rest else (k1, v) :: bumpCount rest k

/-- The whole counting loop of `_recommend_specialty`. -/
def countsOf (l : List PyStr) : List (PyStr × Nat) := l.foldl bumpCount []

/-- Python `max(d, key=d.get)` over a dict in iteration order: scan the
entries keeping the current best, replacing it only on a strictly greater
value, so the first key attaining the maximum wins. The empty case cannot
be reached by `_recommend_specialty` (Python `max` would raise there). -/
def pyMaxKey (d : List (PyStr × Nat)) : PyStr :=
  match d with
  | [] => []
  | e :: rest => (rest.foldl (fun best x => if x.2 > best.2 then x else best) e).1

/-- Source: `TriageAgent._recommend_specialty`. -/
def recommend_specialty (assessment : SymptomAssessment)
    (knowledge : List KnowledgeSnippet) : PyStr :=
  let specialties_found := knowledge.map tag_or_general
  if specialties_found ≠ [] then
    pyMaxKey (countsOf specialties_found)
  else
    match SPECIALTY_KEYWORDS.find? (specialty_keyword_hit assessment) with
    | some sk => sk.1
    | none => "general_medicine".data

/-- Source: `TriageAgent._calculate_confidence` (float arithmetic as rationals). -/
def calculate_confidence (context : Context) (knowledge : List KnowledgeSnippet) : ℚ :=
  let confidence : ℚ := 1/2
  let confidence :=
    if knowledge ≠ [] then
      confidence + ((knowledge.map (fun kb => kb.score.getD (1/2))).sum / knowledge.length) * (3/10)
    else confidence
  let completeness : ℚ :=
    ((if context.medical.chronic_conditions.length > 0 then (1 : ℚ) else 0) +
     (if context.medical.current_medications.length > 0 then 1 else 0) +
     (if context.symptom.severity > 0 then 1 else 0) +
     (if context.risk.risk_factors.length ≥ 0 then 1 else 0)) / 4
  let confidence := confidence + completeness * (1/5)
  min 1 confidence

/-- Source: `TriageAgent._estimate_wait_time`. -/
def estimate_wait_time (urgency : UrgencyLevel) : PyStr :=
  match urgency with
  | .critical => "Immediate".data
  | .urgent => "Within 2 hours".data
  | .semiUrgent => "Within 24 hours".data
  | .standard => "Within 1-2 weeks".data
  | .nonUrgent => "Within 1 month".data

/-- Source: `TriageAgent.perform_triage`. The LLM response is passed in as
`llm : Option PyStr` (`none` models the `except` branch that substitutes
the fixed fallback assessment string); the search backend is threaded to
`retrieve_medical_knowledge`. -/
def perform_triage (assessment : SymptomAssessment) (context : Context)
    (backend : Option (List KnowledgeSnippet)) (llm : Option PyStr) : TriageResult :=
  let symptoms_text := assessment.primary_complaint ++ " ".data ++ joinSpace assessment.symptoms
  let medical_knowledge := retrieve_medical_knowledge backend symptoms_text
  let ai_assessment := llm.getD "Fallback assessment based on symptoms and risk factors".data
  let urgency_level := determine_urgency assessment context medical_knowledge
  let specialty := recommend_specialty assessment medical_knowledge
  let confidence := calculate_confidence context medical_knowledge
  { assessment_id := assessment.assessment_id,
    urgency_level := urgency_level,
    recommended_specialty := specialty,
    risk_factors := context.risk.risk_factors,
    clinical_reasoning :=
      if ai_assessment.length > 200 then ai_assessment.take 200 ++ "...".data else ai_assessment,
    confidence_score := confidence,
    requires_emergency := decide (urgency_level = .critical),
    estimated_wait_time := estimate_wait_time urgency_level }

/-! ## Physician matching agent (`src/agents/physician_agent.py`) -/

/-- Source: `PhysicianMatchingAgent._calculate_distance`. Python `hash` is
process-randomized, so it is a parameter `pyHash`; `%` on a positive
modulus agrees with Lean `Int.emod`. The `round(..., 1)` is the identity
here because both bands are integer-valued. -/
def calculate_distance (pyHash : PyStr → Int)
    (patient_location physician_location : PyStr) : ℚ :=
  let patient_city :=
    (LOCATION_CITIES.find? (fun city => strHas city patient_location)).getD "New York".data
  let physician_city :=
    (LOCATION_CITIES.find? (fun city => strHas city physician_location)).getD "New York".data
  if patient_city = physician_city then
    (5 : ℚ) + ((pyHash (patient_location ++ physician_location)) % 20 : Int)
  else
    (200 : ℚ) + ((pyHash (patient_city ++ physician_city)) % 1000 : Int)

/-- Source: `PhysicianMatchingAgent._calculate_next_availability`: the offset,
in minutes, added to `datetime.now()`. -/
def next_availability_offset (urgency : UrgencyLevel) : Int :=
  match urgency with
  | .critical => 30
  | .urgent => 120
  | .semiUrgent => 1440
  | .standard => 10080
  | .nonUrgent => 43200

/-- The `.days` of `x.next_available - datetime.now()` used in the sort
key: the sort-time clock reading is strictly later than the one inside
`_calculate_next_availability`, so the timedelta is strictly below the
offset and its `.days` is `(offset - 1) / 1440` (floor). -/
def days_until_available (next_available : Int) : Int := (next_available - 1) / 1440

/-- The composite sort key of `match_physicians`. -/
def ranking_score (r : PhysicianRecommendation) : ℚ :=
  r.distance_km * (3/10) + (5 - r.rating) * (3/10) + (days_until_available r.next_available) * (2/5)

/-- Source: `PhysicianMatchingAgent.match_physicians`. Python `list.sort` is a
stable sort, modelled by the stable `List.insertionSort`. The final
`print(... recommendations[0].name)` indexes into the sorted list
unconditionally, so an empty recommendation list raises `IndexError`:
that uncaught exception is the `Except.error` case. -/
def match_physicians (pyHash : PyStr → Int) (triage_result : TriageResult)
    (patient : Patient) : Except PyStr (List PhysicianRecommendation) :=
  let specialty_matches := PHYSICIANS_DATABASE.filter (fun p =>
    lowerStr p.specialty = lowerStr triage_result.recommended_specialty ∨
    strHas (lowerStr triage_result.recommended_specialty) (lowerStr p.specialty))
  let insurance_matches := specialty_matches.filter (fun p =>
    (p.accepts_insurance.map lowerStr).contains (lowerStr patient.insurance))
  let recommendations := (insurance_matches.take 5).map (fun physician =>
    { physician_id := physician.id,
      name := physician.name,
      specialty := physician.specialty,
      location := physician.location,
      availability := physician.availability,
      rating := physician.rating,
      distance_km := calculate_distance pyHash patient.location physician.location,
      accepts_insurance := true,
      next_available := next_availability_offset triage_result.urgency_level
      : PhysicianRecommendation })
  let sorted := List.insertionSort (fun a b => ranking_score a ≤ ranking_score b) recommendations
  match sorted with
  | [] => .error "IndexError: list index out of range".data
  | _ :: _ => .ok sorted

/-! ## Scheduling agent (`src/agents/scheduling_agent.py`) -/

/-- The dict returned by `schedule_appointment`: either the failure dict
`{"status": "failed", "reason": "No physicians available"}` or the
confirmed appointment. -/
inductive SchedulingResult where
  | failed (reason : PyStr)
  | confirmed (appointment_id : PyStr) (physician : PhysicianRecommendation)
      (appointment_time : Int) (location : PyStr) (estimated_duration : PyStr)
      (prep_tasks : List PyStr) (confirmation_sent : Bool) (calendar_updated : Bool)
  deriving DecidableEq, Repr

/-- Source: `AppointmentSchedulingAgent._generate_prep_tasks`. -/
def generate_prep_tasks (triage_result : TriageResult) : List PyStr :=
  let tasks := ["Bring photo ID and insurance card".data,
                "Arrive 15 minutes early for check-in".data,
                "Bring current medication list".data,
                "Prepare list of questions for doctor".data]
  let specialty_tasks : List (PyStr × List PyStr) :=
    [("cardiology".data, ["Avoid caffeine 4 hours before appointment".data,
                          "Bring any previous EKG or cardiac test results".data]),
     ("dermatology".data, ["Avoid makeup on affected areas".data,
                           "Bring photos of skin changes over time".data]),
     ("gastroenterology".data, ["Fast for 8 hours if blood work needed".data,
                                "Keep symptom diary until appointment".data])]
  let specialty := lowerStr triage_result.recommended_specialty
  let tasks := match specialty_tasks.find? (fun st => st.1 = specialty) with
    | some st => tasks ++ st.2
    | none => tasks
  if triage_result.urgency_level = .urgent ∨ triage_result.urgency_level = .critical then
    tasks ++ ["Arrange transportation (do not drive if feeling unwell)".data,
              "Notify emergency contact of appointment".data]
  else tasks

/-- Source: `AppointmentSchedulingAgent.schedule_appointment`; the fresh
`uuid`-based appointment id is a parameter. -/
def schedule_appointment (triage_result : TriageResult)
    (physician_recommendations : List PhysicianRecommendation)
    (appointment_id : PyStr) : SchedulingResult :=
  match physician_recommendations with
  | [] => .failed "No physicians available".data
  | selected :: _ =>
    .confirmed appointment_id selected selected.next_available selected.location
      "30 minutes".data (generate_prep_tasks triage_result) true true

/-! ## Workflow coordinator agent (`src/agents/workflow_agent.py`) -/

/-- A pre-appointment task dict; `due_date` is minutes after the current
time (the `isoformat` strings encode exactly such clock offsets). -/
structure WfTask where
  task : PyStr
  status : PyStr
  due_date : Int
  deriving DecidableEq, Repr

/-- An appointment-day step dict. `duration_lower` is the lower-bound
minute figure the code parses out of the duration label. -/
structure WfStep where
  step : PyStr
  duration : PyStr
  duration_lower : Int
  responsible : PyStr
  deriving DecidableEq, Repr

/-- A post-appointment task dict. -/
structure WfPostTask where
  task : PyStr
  responsible : PyStr
  due : PyStr
  deriving DecidableEq, Repr

/-- A follow-up milestone dict; `due_date` is minutes after the current
time. -/
structure WfMilestone where
  milestone : PyStr
  due_date : Int
  responsible : PyStr
  deriving DecidableEq, Repr

/-- The four-phase care workflow dict assembled by `create_care_workflow`. -/
structure CareWorkflow where
  workflow_id : PyStr
  patient_id : PyStr
  pre_appointment_tasks : List WfTask
  pre_completion_done : Nat
  pre_completion_total : Nat
  appointment_steps : List WfStep
  total_estimated_duration : Int
  post_appointment_tasks : List WfPostTask
  follow_up_milestones : List WfMilestone
  deriving DecidableEq, Repr

/-- Source: `WorkflowCoordinatorAgent._create_pre_appointment_workflow`. The
cardiology branch reads `scheduling_result["appointment_time"]`, which
raises `KeyError` when scheduling failed; that is the `Except.error`
case. -/
def create_pre_appointment_workflow (triage_result : TriageResult)
    (scheduling_result : SchedulingResult) : Except PyStr (List WfTask) :=
  let tasks : List WfTask :=
    [{ task := "Send appointment confirmation".data, status := "completed".data, due_date := 0 },
     { task := "Update patient portal".data, status := "completed".data, due_date := 0 },
     { task := "Send pre-appointment instructions".data, status := "pending".data, due_date := 60 }]
  let tasks :=
    if triage_result.urgency_level = .urgent ∨ triage_result.urgency_level = .critical then
      tasks ++ [{ task := "Contact patient to confirm appointment understanding".data,
                  status := "pending".data, due_date := 120 }]
    else tasks
  if triage_result.recommended_specialty = "cardiology".data then
    match scheduling_result with
    | .failed _ => .error "KeyError: appointment_time".data
    | .confirmed _ _ appointment_time _ _ _ _ _ =>
      .ok (tasks ++ [{ task := "Order pre-visit EKG if indicated".data,
                       status := "pending".data, due_date := appointment_time - 1440 }])
  else .ok tasks

/-- Source: `WorkflowCoordinatorAgent._create_appointment_workflow`. -/
def create_appointment_workflow (triage_result : TriageResult) : List WfStep :=
  let steps : List WfStep :=
    [{ step := "Patient check-in".data, duration := "5 min".data, duration_lower := 5,
       responsible := "reception".data },
     { step := "Vital signs collection".data, duration := "10 min".data, duration_lower := 10,
       responsible := "nurse".data },
     { step := "Medical history review".data, duration := "5 min".data, duration_lower := 5,
       responsible := "nurse".data },
     { step := "Physician consultation".data, duration := "20-30 min".data, duration_lower := 20,
       responsible := "physician".data },
     { step := "Treatment plan discussion".data, duration := "10 min".data, duration_lower := 10,
       responsible := "physician".data },
     { step := "Schedule follow-up if needed".data, duration := "5 min".data, duration_lower := 5,
       responsible := "reception".data }]
  if triage_result.urgency_level = .urgent then
    steps.take 2 ++ [{ step := "Rapid assessment protocol".data, duration := "10 min".data,
                       duration_lower := 10, responsible := "nurse".data }] ++ steps.drop 2
  else steps

/-- Source: `WorkflowCoordinatorAgent._create_post_appointment_workflow`. -/
def create_post_appointment_workflow (triage_result : TriageResult) : List WfPostTask :=
  let tasks : List WfPostTask :=
    [{ task := "Upload visit notes to EHR".data, responsible := "physician".data,
       due := "Within 24 hours".data },
     { task := "Send visit summary to patient".data, responsible := "system".data,
       due := "Within 2 hours".data },
     { task := "Process any lab/imaging orders".data, responsible := "lab_coordinator".data,
       due := "Same day".data }]
  if triage_result.recommended_specialty = "cardiology".data then
    tasks ++ [{ task := "Review EKG results with patient".data, responsible := "physician".data,
                due := "Within 48 hours".data }]
  else tasks

/-- Source: `WorkflowCoordinatorAgent._create_follow_up_workflow`. -/
def create_follow_up_workflow (triage_result : TriageResult) : List WfMilestone :=
  let milestones : List WfMilestone :=
    if triage_result.urgency_level = .urgent ∨ triage_result.urgency_level = .semiUrgent then
      [{ milestone := "24-hour check-in call".data, due_date := 1440, responsible := "nurse".data },
       { milestone := "1-week follow-up appointment".data, due_date := 10080,
         responsible := "scheduler".data }]
    else []
  milestones ++ [{ milestone := "Treatment response evaluation".data, due_date := 20160,
                   responsible := "physician".data }]

/-- Source: `WorkflowCoordinatorAgent.create_care_workflow`; the fresh workflow id
is a parameter. -/
def create_care_workflow (patient : Patient) (triage_result : TriageResult)
    (scheduling_result : SchedulingResult) (workflow_id : PyStr) :
    Except PyStr CareWorkflow :=
  match create_pre_appointment_workflow triage_result scheduling_result with
  | .error e => .error e
  | .ok pre_tasks =>
    let steps := create_appointment_workflow triage_result
    let post_tasks := create_post_appointment_workflow triage_result
    let milestones := create_follow_up_workflow triage_result
    .ok { workflow_id := workflow_id,
          patient_id := patient.patient_id,
          pre_appointment_tasks := pre_tasks,
          pre_completion_done := (pre_tasks.filter (fun t => t.status = "completed".data)).length,
          pre_completion_total := pre_tasks.length,
          appointment_steps := steps,
          total_estimated_duration := (steps.map (fun s => s.duration_lower)).sum,
          post_appointment_tasks := post_tasks,
          follow_up_milestones := milestones }

/-! ## Agent system (`src/core/agent_system.py`) -/

/-- The `emergency_summary` dict of `_handle_emergency_escalation`. -/
structure EmergencySummary where
  patient_id : PyStr
  emergency_level : PyStr
  primary_symptoms : List PyStr
  medical_history : List PyStr
  current_medications : List PyStr
  allergies : List PyStr
  emergency_contact : PyStr
  estimated_arrival : PyStr
  recommended_actions : List PyStr
  deriving DecidableEq, Repr

/-- Source: `MedicalAgentSystem._handle_emergency_escalation`: the summary it
builds. -/
def emergency_summary (patient : Patient) (assessment : SymptomAssessment) :
    EmergencySummary :=
  { patient_id := patient.patient_id,
    emergency_level := "CRITICAL".data,
    primary_symptoms := assessment.symptoms,
    medical_history := patient.medical_history,
    current_medications := patient.current_medications,
    allergies := patient.allergies,
    emergency_contact := patient.emergency_contact,
    estimated_arrival := "Immediate transport recommended".data,
    recommended_actions := ["Call 911 immediately".data,
                            "Do not drive yourself".data,
                            "Have someone stay with you".data,
                            "Bring medication list and ID".data] }

/-- The two shapes of dict `coordinate_patient_journey` can return. -/
inductive JourneyOutcome where
  | completed (patient : Patient) (assessment : SymptomAssessment) (context : Context)
      (triage_result : TriageResult)
      (physician_recommendations : List PhysicianRecommendation)
      (scheduling_result : SchedulingResult) (workflow_plan : CareWorkflow)
  | emergency (patient : Patient) (assessment : SymptomAssessment)
      (triage_result : TriageResult) (summary : EmergencySummary)
  deriving DecidableEq, Repr

/-- The `journey_status` field of the returned dict. -/
def JourneyOutcome.journey_status : JourneyOutcome → PyStr
  | .completed .. => "Completed".data
  | .emergency .. => "Emergency Escalation".data

/-- The pipeline stages the coordinator can hand work to. -/
inductive Stage where
  | contextBuilding
  | triage
  | physicianMatching
  | scheduling
  | workflowCoordination
  deriving DecidableEq, Repr

/-- The externally supplied values a journey consumes: the search backend
(`none` = unavailable or failing), the LLM response (`none` = the call
raised), the process hash function, the fresh ids, and the
clock-dependent temporal section. -/
structure ExternalEnv where
  backend : Option (List KnowledgeSnippet)
  llm : Option PyStr
  pyHash : PyStr → Int
  appointment_id : PyStr
  workflow_id : PyStr
  temporal : TemporalContext

/-- The result of one run of `coordinate_patient_journey`, instrumented
with the list of stages the coordinator actually invoked, in order.
`outcome = .error e` models an uncaught Python exception escaping the
coordinator. -/
structure JourneyRun where
  outcome : Except PyStr JourneyOutcome
  invoked : List Stage

/-- Source: `MedicalAgentSystem.coordinate_patient_journey`. -/
def coordinate_patient_journey (env : ExternalEnv) (patient : Patient)
    (assessment : SymptomAssessment) : JourneyRun :=
  let context := build_comprehensive_context patient assessment env.temporal
  let triage_result := perform_triage assessment context env.backend env.llm
  if triage_result.requires_emergency then
    { outcome := .ok (.emergency patient assessment triage_result
        (emergency_summary patient assessment)),
      invoked := [.contextBuilding, .triage] }
  else
    match match_physicians env.pyHash triage_result patient with
    | .error e =>
      { outcome := .error e,
        invoked := [.contextBuilding, .triage, .physicianMatching] }
    | .ok physician_recommendations =>
      let scheduling_result :=
        schedule_appointment triage_result physician_recommendations env.appointment_id
      match create_care_workflow patient triage_result scheduling_result env.workflow_id with
      | .error e =>
        { outcome := .error e,
          invoked := [.contextBuilding, .triage, .physicianMatching, .scheduling,
                      .workflowCoordination] }
      | .ok workflow_plan =>
        { outcome := .ok (.completed patient assessment context triage_result
            physician_recommendations scheduling_result workflow_plan),
          invoked := [.contextBuilding, .triage, .physicianMatching, .scheduling,
                      .workflowCoordination] }

/-! ## Further helper notions used in theorem statements -/

/-- The key list of a counting dict. -/
def dkeys (d : List (PyStr × Nat)) : List PyStr := d.map Prod.fst

/-- Modelled from the spec wording of the specialty-recommendation claim,
for refinement comparison with `recommend_specialty`: tally only the
specialty tags the snippets actually carry, and fall back to the keyword
scan when NO SNIPPET CARRIES A SPECIALTY (the code instead falls back
only when the snippet list itself is empty, counting untagged snippets
as "general"). -/
def specialty_per_claim (assessment : SymptomAssessment)
    (knowledge : List KnowledgeSnippet) : PyStr :=
  let tagged := knowledge.filterMap (fun kb => kb.specialty)
  if tagged ≠ [] then
    pyMaxKey (countsOf tagged)
  else
    match SPECIALTY_KEYWORDS.find? (specialty_keyword_hit assessment) with
    | some sk => sk.1
    | none => "general_medicine".data

/-! ## Concrete inputs used by witnesses and counterexamples -/

/-- A snippet carrying no `specialty` key at all. -/
def untagged_snippet : KnowledgeSnippet :=
  { title := "Note".data, content := "General note".data,
    specialty := none, urgency := none, score := none }

/-- An assessment whose complaint text contains the neurology keyword
"headache" and no fallback-retrieval keyword other than "headache". -/
def headache_assessment : SymptomAssessment :=
  { patient_id := "p1".data, primary_complaint := "headache".data, symptoms := [],
    duration := "2 days".data, severity := 3, associated_symptoms := [],
    aggravating_factors := [], relieving_factors := [], previous_episodes := false,
    assessment_id := "a1".data, created_at := 0 }

/-- An assessment whose text matches no specialty keyword at all. -/
def fatigue_assessment : SymptomAssessment :=
  { patient_id := "p2".data, primary_complaint := "tired".data, symptoms := [],
    duration := "2 days".data, severity := 2, associated_symptoms := [],
    aggravating_factors := [], relieving_factors := [], previous_episodes := false,
    assessment_id := "a2".data, created_at := 0 }

/-- A Blue Cross patient in Boston, shaped like the demo patient. -/
def demo_patient : Patient :=
  { patient_id := "pat_01".data, name := "Robert Martinez".data, age := 52,
    gender := "Male".data, location := "Boston, MA".data, phone := "+1".data,
    email := "r@x".data, insurance := "Blue Cross".data,
    emergency_contact := "Maria".data,
    medical_history := ["Hypertension".data, "Diabetes".data],
    current_medications := ["Lisinopril 10mg daily".data],
    allergies := ["Penicillin".data], family_history := ["Heart Disease".data],
    lifestyle_factors := [], created_at := 0 }

/-- An 85-year-old patient used for the emergency scenario. -/
def elderly_patient : Patient :=
  { patient_id := "pat_02".data, name := "Jo Lee".data, age := 85,
    gender := "F".data, location := "Boston, MA".data, phone := [], email := [],
    insurance := "Blue Cross".data, emergency_contact := "Kim".data,
    medical_history := [], current_medications := [], allergies := [],
    family_history := [], lifestyle_factors := [], created_at := 0 }

/-- A severity-9 sudden-onset assessment that triages to Critical. -/
def emerg_assessment : SymptomAssessment :=
  { patient_id := "pat_02".data, primary_complaint := "severe headache".data,
    symptoms := ["severe headache".data, "loss of consciousness".data],
    duration := "sudden onset".data, severity := 9, associated_symptoms := [],
    aggravating_factors := [], relieving_factors := [], previous_episodes := false,
    assessment_id := "as_02".data, created_at := 0 }

/-- A patient whose identifier is the empty string. -/
def empty_id_patient : Patient :=
  { patient_id := [], name := [], age := 0, gender := [], location := [],
    phone := [], email := [], insurance := [], emergency_contact := [],
    medical_history := [], current_medications := [], allergies := [],
    family_history := [], lifestyle_factors := [], created_at := 0 }

/-- An assessment whose identifier is the empty string. -/
def empty_id_assessment : SymptomAssessment :=
  { patient_id := [], primary_complaint := [], symptoms := [], duration := [],
    severity := 0, associated_symptoms := [], aggravating_factors := [],
    relieving_factors := [], previous_episodes := false, assessment_id := [],
    created_at := 0 }

/-- A fixed temporal section. -/
def demo_temporal : TemporalContext :=
  { time_of_day := "10:00".data, day_of_week := "Monday".data, season := "Fall".data }

/-- An environment with an unavailable search backend and a failing LLM. -/
def demo_env : ExternalEnv :=
  { backend := none, llm := none, pyHash := fun _ => 0,
    appointment_id := "apt_01".data, workflow_id := "wf_01".data,
    temporal := demo_temporal }

/-- A context built from the demo inputs. -/
def demo_context : Context :=
  build_comprehensive_context demo_patient headache_assessment demo_temporal

/-- A triage verdict recommending a specialty no provider in the
directory offers. -/
def psychiatry_verdict : TriageResult :=
  { assessment_id := "as_03".data, urgency_level := .standard,
    recommended_specialty := "psychiatry".data, risk_factors := [],
    clinical_reasoning := [], confidence_score := 1/2,
    requires_emergency := false, estimated_wait_time := "Within 1-2 weeks".data }

/-! # Helper lemmas -/

theorem foldl_append_filter_map {α : Type} (p : α → Bool) (f : α → PyStr) :
    ∀ (l : List α) (init : List PyStr),
      l.foldl (fun acc x => if p x then acc ++ [f x] else acc) init
        = init ++ (l.filter p).map f := by
  intro l
  induction l with
  | nil => intro init; simp
  | cons x xs ih =>
    intro init
    by_cases hx : p x = true
    · simp only [List.foldl_cons, List.filter_cons, hx, if_pos, List.map_cons, ih,
        List.append_assoc, List.singleton_append]
    · simp only [List.foldl_cons, List.filter_cons, hx, if_neg, ih]
      simp [hx]

/-- Decomposition of the risk-factor list built by `calculate_risk_factors`:
one block per rule, in program order. -/
theorem risk_factors_decomp (patient : Patient) (assessment : SymptomAssessment) :
    (calculate_risk_factors patient assessment).risk_factors =
      (if patient.age > 65 then ["Advanced age".data]
       else if patient.age < 2 then ["Pediatric patient".data] else [])
      ++ (patient.medical_history.filter has_high_risk_condition).map
           (fun condition => "History of ".data ++ condition)
      ++ (patient.current_medications.filter has_high_risk_med).map
           (fun med => "High-risk medication: ".data ++ med)
      ++ (if assessment.severity ≥ 8 then ["High severity symptoms".data] else [])
      ++ (assessment.symptoms.filter has_red_flag_symptom).map
           (fun symptom => "Red flag symptom: ".data ++ symptom) := by
  simp only [calculate_risk_factors, foldl_append_filter_map]
  split_ifs <;> simp [List.append_assoc]

theorem extract_ite_add {c : Prop} [Decidable c] (x a : Int) :
    (if c then x + a else x) = x + (if c then a else 0) := by
  split <;> simp

theorem extract_ite_add2 {c : Prop} [Decidable c] (x a b : Int) :
    (if c then x + a else x + b) = x + (if c then a else b) := by
  split <;> rfl

theorem foldl_add_sum {α : Type} (g : α → Int) :
    ∀ (l : List α) (i : Int), l.foldl (fun acc x => acc + g x) i = i + (l.map g).sum := by
  intro l
  induction l with
  | nil => intro i; simp
  | cons x xs ih => intro i; simp only [List.foldl_cons, ih, List.map_cons, List.sum_cons]; ring

/-- Closed form of the urgency-score accumulation. -/
theorem urgency_score_closed (assessment : SymptomAssessment) (context : Context)
    (knowledge : List KnowledgeSnippet) :
    urgency_score assessment context knowledge =
      assessment.severity * 10 + (context.risk.risk_factors.length : Int) * 15
      + (if context.demographic.age < 2 ∨ context.demographic.age > 80 then 20 else 0)
      + (assessment.symptoms.map (fun symptom =>
           if has_triage_red_flag symptom then (30 : Int) else 0)).sum
      + (knowledge.map (fun kb =>
           if kb.urgency = some "high".data then (25 : Int)
           else if kb.urgency = some "medium".data then 15 else 0)).sum
      + (if strHas "sudden".data (lowerStr assessment.duration) ∨
            strHas "acute".data (lowerStr assessment.duration)
         then 20 else 0) := by
  simp only [urgency_score, extract_ite_add, extract_ite_add2, foldl_add_sum]
  ring

/-- Characterization of the score-threshold chain. -/
theorem score_to_level_iff (s : Int) :
    (score_to_level s = .critical ↔ 100 ≤ s) ∧
    (score_to_level s = .urgent ↔ 70 ≤ s ∧ s < 100) ∧
    (score_to_level s = .semiUrgent ↔ 50 ≤ s ∧ s < 70) ∧
    (score_to_level s = .standard ↔ 30 ≤ s ∧ s < 50) ∧
    (score_to_level s = .nonUrgent ↔ s < 30) := by
  unfold score_to_level
  split_ifs with h1 h2 h3 h4 <;>
    refine ⟨?_, ?_, ?_, ?_, ?_⟩ <;> simp <;> omega

/-! # Claim theorems -/

/-- C1: a triage result produced by `perform_triage` has
`requires_emergency = true` exactly when its urgency level is Critical. -/
theorem triage_emergency_iff_critical (assessment : SymptomAssessment)
    (context : Context) (backend : Option (List KnowledgeSnippet)) (llm : Option PyStr) :
    (perform_triage assessment context backend llm).requires_emergency = true ↔
      (perform_triage assessment context backend llm).urgency_level = .critical := by
  simp only [perform_triage]
  exact decide_eq_true_iff

/-- C3: `_determine_urgency` maps the accumulated integer urgency score to
a level with first-match thresholds evaluated high to low (≥100 Critical,
≥70 Urgent, ≥50 SemiUrgent, ≥30 Standard, else NonUrgent); at the boundary
scores 30/50/70/100 it yields Standard/SemiUrgent/Urgent/Critical and at
29/49/69/99 one level lower each. -/
theorem determine_urgency_thresholds :
    (∀ (assessment : SymptomAssessment) (context : Context)
        (knowledge : List KnowledgeSnippet),
      (determine_urgency assessment context knowledge = .critical ↔
        100 ≤ urgency_score assessment context knowledge) ∧
      (determine_urgency assessment context knowledge = .urgent ↔
        70 ≤ urgency_score assessment context knowledge ∧
          urgency_score assessment context knowledge < 100) ∧
      (determine_urgency assessment context knowledge = .semiUrgent ↔
        50 ≤ urgency_score assessment context knowledge ∧
          urgency_score assessment context knowledge < 70) ∧
      (determine_urgency assessment context knowledge = .standard ↔
        30 ≤ urgency_score assessment context knowledge ∧
          urgency_score assessment context knowledge < 50) ∧
      (determine_urgency assessment context knowledge = .nonUrgent ↔
        urgency_score assessment context knowledge < 30)) ∧
    score_to_level 30 = .standard ∧ score_to_level 50 = .semiUrgent ∧
    score_to_level 70 = .urgent ∧ score_to_level 100 = .critical ∧
    score_to_level 29 = .nonUrgent ∧ score_to_level 49 = .standard ∧
    score_to_level 69 = .semiUrgent ∧ score_to_level 99 = .urgent := by
  refine ⟨?_, by decide, by decide, by decide, by decide, by decide, by decide,
    by decide, by decide⟩
  intro assessment context knowledge
  simpa only [determine_urgency] using score_to_level_iff (urgency_score assessment context knowledge)

/-- C8: the risk section built by `_calculate_risk_factors` holds exactly
one entry per triggered rule — the age rules, one tagged factor per
keyword-matching chronic condition, one per keyword-matching medication,
the high-severity rule at severity ≥ 8, one per red-flag symptom — with
`risk_score` the number of factors and `high_risk` true exactly when the
score is at least 3. -/
theorem risk_context_spec (patient : Patient) (assessment : SymptomAssessment) :
    (calculate_risk_factors patient assessment).risk_factors =
      (if patient.age > 65 then ["Advanced age".data]
       else if patient.age < 2 then ["Pediatric patient".data] else [])
      ++ (patient.medical_history.filter has_high_risk_condition).map
           (fun condition => "History of ".data ++ condition)
      ++ (patient.current_medications.filter has_high_risk_med).map
           (fun med => "High-risk medication: ".data ++ med)
      ++ (if assessment.severity ≥ 8 then ["High severity symptoms".data] else [])
      ++ (assessment.symptoms.filter has_red_flag_symptom).map
           (fun symptom => "Red flag symptom: ".data ++ symptom) ∧
    (calculate_risk_factors patient assessment).risk_score =
      (calculate_risk_factors patient assessment).risk_factors.length ∧
    ((calculate_risk_factors patient assessment).high_risk = true ↔
      3 ≤ (calculate_risk_factors patient assessment).risk_score) := by
  refine ⟨risk_factors_decomp patient assessment, rfl, ?_⟩
  simp only [calculate_risk_factors]
  exact decide_eq_true_iff

/-- C6: holding the patient, the snippets and every other assessment field
fixed, the urgency score computed over the context built from the
assessment is non-decreasing in the severity field (the context engineer
adds its extra high-severity risk factor at severity ≥ 8). -/
theorem urgency_score_monotone_in_severity (patient : Patient)
    (assessment : SymptomAssessment) (temporal : TemporalContext)
    (knowledge : List KnowledgeSnippet) (s1 s2 : Int) (h : s1 ≤ s2) :
    urgency_score { assessment with severity := s1 }
        (build_comprehensive_context patient { assessment with severity := s1 } temporal)
        knowledge
      ≤ urgency_score { assessment with severity := s2 }
        (build_comprehensive_context patient { assessment with severity := s2 } temporal)
        knowledge := by
  simp only [urgency_score_closed, build_comprehensive_context, risk_factors_decomp]
  simp only [List.length_append, apply_ite List.length, List.length_map, List.length_singleton,
    List.length_nil]
  push_cast
  split_ifs <;> omega

/-- Witness for C6 at a concrete patient, assessment and severity pair. -/
theorem urgency_score_monotone_in_severity_witness :
    (3 : Int) ≤ 9 ∧
    urgency_score { headache_assessment with severity := 3 }
        (build_comprehensive_context demo_patient
          { headache_assessment with severity := 3 } demo_temporal) []
      ≤ urgency_score { headache_assessment with severity := 9 }
        (build_comprehensive_context demo_patient
          { headache_assessment with severity := 9 } demo_temporal) [] :=
  ⟨by decide,
   urgency_score_monotone_in_severity demo_patient headache_assessment demo_temporal []
     3 9 (by decide)⟩

/-- C5: with an unavailable or failing backend, retrieval never returns an
empty list — and when no fallback keyword occurs in the query it returns
exactly the designated default snippet. -/
theorem retrieval_never_empty (symptoms : PyStr) :
    retrieve_medical_knowledge none symptoms ≠ [] ∧
    ((∀ kv ∈ fallback_knowledge, strHas kv.1 (lowerStr symptoms) = false) →
      retrieve_medical_knowledge none symptoms = [chest_pain_entry]) := by
  constructor
  · simp only [retrieve_medical_knowledge, fallback_retrieval]
    split
    · assumption
    · simp
  · intro h
    have h1 := h _ (by simp [fallback_knowledge] : ("chest pain".data, chest_pain_entry) ∈ fallback_knowledge)
    have h2 := h _ (by simp [fallback_knowledge] : ("headache".data, headache_entry) ∈ fallback_knowledge)
    have h3 := h _ (by simp [fallback_knowledge] : ("abdominal pain".data, abdominal_pain_entry) ∈ fallback_knowledge)
    simp only [retrieve_medical_knowledge, fallback_retrieval, fallback_knowledge,
      List.foldl_cons, List.foldl_nil] at h1 h2 h3 ⊢
    simp [h1, h2, h3]

/-- Witness for C5 at the concrete query "fever". -/
theorem retrieval_never_empty_witness :
    retrieve_medical_knowledge none "fever".data ≠ [] ∧
    retrieve_medical_knowledge none "fever".data = [chest_pain_entry] :=
  ⟨(retrieval_never_empty "fever".data).1,
   (retrieval_never_empty "fever".data).2 (by decide)⟩

/-- Every snippet appended by the keyword loop of `_fallback_retrieval`
carries relevance score 0.8. -/
theorem score_of_mem_fallback_fold (q : PyStr) :
    ∀ (l : List (PyStr × KnowledgeSnippet)) (init : List KnowledgeSnippet),
      (∀ t ∈ init, t.score = some (4/5)) →
      ∀ t ∈ l.foldl (fun acc kv =>
          if strHas kv.1 q then acc ++ [{ kv.2 with score := some (4/5) }] else acc) init,
        t.score = some (4/5) := by
  intro l
  induction l with
  | nil => intro init hinit t ht; exact hinit t ht
  | cons kv rest ih =>
    intro init hinit t ht
    simp only [List.foldl_cons] at ht
    refine ih _ ?_ t ht
    intro u hu
    by_cases hc : strHas kv.1 q = true
    · rw [if_pos hc] at hu
      rcases List.mem_append.mp hu with h | h
      · exact hinit u h
      · simp only [List.mem_singleton] at h
        subst h
        rfl
    · rw [if_neg hc] at hu
      exact hinit u hu

/-- C10: when the backend is unavailable and no fallback keyword occurs in
the query, retrieval returns exactly one snippet — the chest-pain
emergency-protocol entry, the first value of the fallback table — which
carries no relevance-score field (`score = none`), unlike keyword-hit
snippets which carry score 0.8; the downstream confidence computation
treats the missing score as 0.5. -/
theorem fallback_default_snippet (symptoms : PyStr) :
    ((∀ kv ∈ fallback_knowledge, strHas kv.1 (lowerStr symptoms) = false) →
      retrieve_medical_knowledge none symptoms = [chest_pain_entry]) ∧
    fallback_knowledge.head?.map Prod.snd = some chest_pain_entry ∧
    chest_pain_entry.score = none ∧
    (∀ s ∈ fallback_retrieval symptoms, s.score = some (4/5) ∨ s = chest_pain_entry) ∧
    (∀ context : Context,
      calculate_confidence context [chest_pain_entry] =
        calculate_confidence context [{ chest_pain_entry with score := some (1/2) }]) := by
  refine ⟨?_, rfl, rfl, ?_, ?_⟩
  · intro h
    have h1 := h _ (by simp [fallback_knowledge] : ("chest pain".data, chest_pain_entry) ∈ fallback_knowledge)
    have h2 := h _ (by simp [fallback_knowledge] : ("headache".data, headache_entry) ∈ fallback_knowledge)
    have h3 := h _ (by simp [fallback_knowledge] : ("abdominal pain".data, abdominal_pain_entry) ∈ fallback_knowledge)
    simp only [retrieve_medical_knowledge, fallback_retrieval, fallback_knowledge,
      List.foldl_cons, List.foldl_nil] at h1 h2 h3 ⊢
    simp [h1, h2, h3]
  · intro s hs
    simp only [fallback_retrieval] at hs
    split at hs
    · exact Or.inl
        (score_of_mem_fallback_fold (lowerStr symptoms) fallback_knowledge [] (by simp) s hs)
    · simp only [List.mem_singleton] at hs
      exact Or.inr hs
  · intro context
    simp [calculate_confidence, chest_pain_entry]

/-- Witness for C10 at the concrete query "dizzy". -/
theorem fallback_default_snippet_witness :
    retrieve_medical_knowledge none "dizzy".data = [chest_pain_entry] ∧
    calculate_confidence demo_context [chest_pain_entry] =
      calculate_confidence demo_context [{ chest_pain_entry with score := some (1/2) }] :=
  ⟨(fallback_default_snippet "dizzy".data).1 (by decide),
   (fallback_default_snippet "dizzy".data).2.2.2.2 demo_context⟩

/-- C2: when the triage verdict of a journey requires emergency, the
coordinator returns only the emergency result — patient, assessment,
triage result and emergency summary under journey status
"Emergency Escalation" — and the physician-matching, scheduling and
workflow stages are never invoked. -/
theorem emergency_short_circuit (env : ExternalEnv) (patient : Patient)
    (assessment : SymptomAssessment)
    (h : (perform_triage assessment
        (build_comprehensive_context patient assessment env.temporal)
        env.backend env.llm).requires_emergency = true) :
    (coordinate_patient_journey env patient assessment).outcome =
      .ok (.emergency patient assessment
        (perform_triage assessment
          (build_comprehensive_context patient assessment env.temporal)
          env.backend env.llm)
        (emergency_summary patient assessment)) ∧
    (∀ o, (coordinate_patient_journey env patient assessment).outcome = .ok o →
      o.journey_status = "Emergency Escalation".data) ∧
    (coordinate_patient_journey env patient assessment).invoked =
      [.contextBuilding, .triage] ∧
    Stage.physicianMatching ∉ (coordinate_patient_journey env patient assessment).invoked ∧
    Stage.scheduling ∉ (coordinate_patient_journey env patient assessment).invoked ∧
    Stage.workflowCoordination ∉ (coordinate_patient_journey env patient assessment).invoked := by
  have hrun : coordinate_patient_journey env patient assessment =
      { outcome := .ok (.emergency patient assessment
          (perform_triage assessment
            (build_comprehensive_context patient assessment env.temporal)
            env.backend env.llm)
          (emergency_summary patient assessment)),
        invoked := [.contextBuilding, .triage] } := by
    simp only [coordinate_patient_journey, h, if_true]
  refine ⟨by rw [hrun], ?_, by rw [hrun], by rw [hrun]; simp, by rw [hrun]; simp,
    by rw [hrun]; simp⟩
  intro o ho
  rw [hrun] at ho
  simp only [Except.ok.injEq] at ho
  subst ho
  rfl

/-- Witness for C2: the 85-year-old, severity-9 scenario triages to
Critical and short-circuits. -/
theorem emergency_short_circuit_witness :
    (perform_triage emerg_assessment
        (build_comprehensive_context elderly_patient emerg_assessment demo_env.temporal)
        demo_env.backend demo_env.llm).requires_emergency = true ∧
    (coordinate_patient_journey demo_env elderly_patient emerg_assessment).invoked =
      [.contextBuilding, .triage] :=
  ⟨by decide,
   (emergency_short_circuit demo_env elderly_patient emerg_assessment (by decide)).2.2.1⟩


/-- C9 counterexample: a journey started with empty patient and assessment
identifiers is not rejected before any stage — the coordinator runs
context building, triage and even physician matching on it. -/
theorem empty_identifiers_not_rejected :
    empty_id_patient.patient_id = [] ∧
    empty_id_assessment.assessment_id = [] ∧
    (coordinate_patient_journey demo_env empty_id_patient empty_id_assessment).invoked =
      [.contextBuilding, .triage, .physicianMatching] := by
  refine ⟨rfl, rfl, ?_⟩
  decide

/-- C9 amended: the coordinator performs no identifier validation at all —
every journey, whatever its patient or assessment identifiers, enters the
pipeline, with context building and triage always executed first. -/
theorem journey_always_starts_pipeline (env : ExternalEnv) (patient : Patient)
    (assessment : SymptomAssessment) :
    (coordinate_patient_journey env patient assessment).invoked ≠ [] ∧
    (coordinate_patient_journey env patient assessment).invoked.take 2 =
      [.contextBuilding, .triage] := by
  simp only [coordinate_patient_journey]
  split
  · exact ⟨by simp, rfl⟩
  · split
    · exact ⟨by simp, rfl⟩
    · split
      · exact ⟨by simp, rfl⟩
      · exact ⟨by simp, rfl⟩

/-- C4 (code bug exhibit): on a verdict whose recommended specialty has no
provider in the directory, `match_physicians` does not return the empty
list — it raises `IndexError` from the unconditional
`recommendations[0]` access — while `schedule_appointment` on an empty
candidate list does return the failure result with the
"No physicians available" reason without throwing. -/
theorem empty_match_raises_index_error :
    match_physicians (fun _ => 0) psychiatry_verdict demo_patient =
      .error "IndexError: list index out of range".data ∧
    schedule_appointment psychiatry_verdict [] "apt_01".data =
      .failed "No physicians available".data := by
  constructor
  · rfl
  · rfl

/-- The value of the Python `max` scan only grows along the fold. -/
theorem foldl_max_val_le :
    ∀ (d : List (PyStr × Nat)) (e : PyStr × Nat),
      e.2 ≤ (d.foldl (fun best x => if x.2 > best.2 then x else best) e).2 := by
  intro d
  induction d with
  | nil => intro e; exact le_rfl
  | cons x xs ih =>
    intro e
    simp only [List.foldl_cons]
    refine le_trans ?_ (ih (if x.2 > e.2 then x else e))
    split <;> omega

/-- Unrolling one step of the Python `max` scan: a later maximum replaces
the running best only when strictly greater. -/
theorem foldl_max_step :
    ∀ (t : List (PyStr × Nat)) (e h : PyStr × Nat),
      (h :: t).foldl (fun best x => if x.2 > best.2 then x else best) e =
        if (t.foldl (fun best x => if x.2 > best.2 then x else best) h).2 > e.2
        then t.foldl (fun best x => if x.2 > best.2 then x else best) h
        else e := by
  intro t
  induction t with
  | nil =>
    intro e h
    simp only [List.foldl_cons, List.foldl_nil]
  | cons y t' ih =>
    intro e h
    by_cases hh : h.2 > e.2
    · have h1 : (h :: y :: t').foldl (fun best x => if x.2 > best.2 then x else best) e =
          (y :: t').foldl (fun best x => if x.2 > best.2 then x else best) h := by
        simp only [List.foldl_cons, if_pos hh]
      rw [h1, if_pos (lt_of_lt_of_le hh (foldl_max_val_le (y :: t') h))]
    · have h1 : (h :: y :: t').foldl (fun best x => if x.2 > best.2 then x else best) e =
          (y :: t').foldl (fun best x => if x.2 > best.2 then x else best) e := by
        simp only [List.foldl_cons, if_neg hh]
      rw [h1, ih e y, ih h y]
      by_cases hf : (t'.foldl (fun best x => if x.2 > best.2 then x else best) y).2 > h.2
      · rw [if_pos hf]
      · rw [if_neg hf, if_neg hh, if_neg (by omega)]

/-- Decomposition around the entry the Python `max` scan returns: every
entry scanned before it is strictly smaller and every entry after it is
at most it, so the first maximal entry wins. -/
theorem foldl_max_decomp :
    ∀ (d : List (PyStr × Nat)) (e : PyStr × Nat),
      ∃ pfx sfx,
        e :: d = pfx ++ (d.foldl (fun best x => if x.2 > best.2 then x else best) e) :: sfx ∧
        (∀ y ∈ pfx, y.2 < (d.foldl (fun best x => if x.2 > best.2 then x else best) e).2) ∧
        (∀ y ∈ sfx, y.2 ≤ (d.foldl (fun best x => if x.2 > best.2 then x else best) e).2) := by
  intro d
  induction d with
  | nil => intro e; exact ⟨[], [], rfl, by simp, by simp⟩
  | cons x xs ih =>
    intro e
    simp only [List.foldl_cons]
    by_cases hx : x.2 > e.2
    · rw [if_pos hx]
      obtain ⟨pfx, sfx, hdec, hpre, hpost⟩ := ih x
      refine ⟨e :: pfx, sfx, by rw [List.cons_append, ← hdec], ?_, hpost⟩
      intro y hy
      rcases List.mem_cons.mp hy with h | h
      · subst h
        exact lt_of_lt_of_le hx (foldl_max_val_le xs x)
      · exact hpre y h
    · rw [if_neg hx]
      obtain ⟨pfx, sfx, hdec, hpre, hpost⟩ := ih e
      cases pfx with
      | nil =>
        simp only [List.nil_append] at hdec
        injection hdec with h1 h2
        refine ⟨[], x :: sfx, ?_, by simp, ?_⟩
        · simp only [List.nil_append]
          rw [← h1, ← h2]
        · intro y hy
          rcases List.mem_cons.mp hy with h | h
          · subst h
            rw [← h1]
            omega
          · exact hpost y h
      | cons p0 pfx2 =>
        simp only [List.cons_append] at hdec
        injection hdec with h1 h2
        refine ⟨e :: x :: pfx2, sfx, ?_, ?_, hpost⟩
        · simp only [List.cons_append]
          rw [← h2]
        · intro y hy
          rcases List.mem_cons.mp hy with h | h
          · subst h
            have := hpre p0 (List.mem_cons_self p0 pfx2)
            rw [← h1] at this
            exact this
          · rcases List.mem_cons.mp h with h | h
            · subst h
              have he := hpre p0 (List.mem_cons_self p0 pfx2)
              rw [← h1] at he
              omega
            · exact hpre y (List.mem_cons_of_mem p0 h)

/-- A key absent from a dict and different from the bumped key stays
absent. -/
theorem not_mem_dkeys_bumpCount :
    ∀ (d : List (PyStr × Nat)) (k a : PyStr), a ∉ dkeys d → a ≠ k →
      a ∉ dkeys (bumpCount d k) := by
  intro d
  induction d with
  | nil =>
    intro k a _ hak
    simpa [bumpCount, dkeys] using hak
  | cons e rest ih =>
    intro k a ha hak
    obtain ⟨k1, v⟩ := e
    simp only [dkeys, List.map_cons, List.mem_cons, not_or] at ha
    obtain ⟨ha1, ha2⟩ := ha
    simp only [bumpCount]
    split
    · simp only [dkeys, List.map_cons, List.mem_cons, not_or]
      exact ⟨ha1, by simpa [dkeys] using ha2⟩
    · simp only [dkeys, List.map_cons, List.mem_cons, not_or]
      refine ⟨ha1, ?_⟩
      have := ih k a (by simpa [dkeys] using ha2) hak
      simpa [dkeys] using this

/-- Threading the counting loop past a key already at the head of the
dict: that key accumulates its count while the other keys are counted on
the residue. -/
theorem foldl_bumpCount_cons :
    ∀ (l : List PyStr) (x : PyStr) (c : Nat) (d : List (PyStr × Nat)), x ∉ dkeys d →
      l.foldl bumpCount ((x, c) :: d) =
        (x, c + l.count x) :: (l.filter (fun s => s ≠ x)).foldl bumpCount d := by
  intro l
  induction l with
  | nil =>
    intro x c d _
    simp
  | cons y l' ih =>
    intro x c d hx
    by_cases hxy : y = x
    · subst hxy
      have hb : bumpCount ((y, c) :: d) y = (y, c + 1) :: d := by
        simp [bumpCount]
      simp only [List.foldl_cons, hb]
      rw [ih y (c + 1) d hx]
      simp only [List.count_cons_self, List.filter_cons, decide_not]
      simp [Nat.add_assoc, Nat.add_comm 1 (l'.count y)]
    · have hxy2 : x ≠ y := fun h => hxy h.symm
      have hb : bumpCount ((x, c) :: d) y = (x, c) :: bumpCount d y := by
        simp [bumpCount, hxy2]
      simp only [List.foldl_cons, hb]
      rw [ih x c (bumpCount d y) (not_mem_dkeys_bumpCount d y x hx hxy2)]
      have hcnt : (y :: l').count x = l'.count x := List.count_cons_of_ne hxy2 l'
      have hfil : (y :: l').filter (fun s => s ≠ x) = y :: l'.filter (fun s => s ≠ x) := by
        simp [List.filter_cons, hxy]
      rw [hcnt, hfil]
      simp only [List.foldl_cons, hb]

/-- The counting dict of a nonempty list starts with the head key and its
total count, followed by the counting dict of the residue. -/
theorem countsOf_cons (x : PyStr) (l : List PyStr) :
    countsOf (x :: l) = (x, l.count x + 1) :: countsOf (l.filter (fun s => s ≠ x)) := by
  have hb : bumpCount [] x = [(x, 1)] := rfl
  simp only [countsOf, List.foldl_cons, hb]
  rw [foldl_bumpCount_cons l x 1 [] (by simp [dkeys])]
  simp [Nat.add_comm]

/-- A nonempty list has a nonempty counting dict. -/
theorem countsOf_ne_nil (x : PyStr) (l : List PyStr) : countsOf (x :: l) ≠ [] := by
  rw [countsOf_cons]
  simp

/-- Every entry of the counting dict is a key of the list together with
its exact number of occurrences. -/
theorem countsOf_entries :
    ∀ (l : List PyStr), ∀ en ∈ countsOf l, en.1 ∈ l ∧ en.2 = l.count en.1
  | [] => by
    intro en hen
    simp [countsOf] at hen
  | x :: l' => by
    intro en hen
    rw [countsOf_cons] at hen
    rcases List.mem_cons.mp hen with h | h
    · subst h
      exact ⟨List.mem_cons_self x l', by simp⟩
    · obtain ⟨hmem, hcnt⟩ := countsOf_entries (l'.filter (fun s => s ≠ x)) en h
      have hne : en.1 ≠ x := by
        have hp := List.of_mem_filter hmem
        simpa using hp
      refine ⟨List.mem_cons_of_mem x (List.mem_of_mem_filter hmem), ?_⟩
      rw [hcnt, List.count_filter (by simp [hne]), List.count_cons_of_ne hne]
  termination_by l => l.length
  decreasing_by
    simp only [List.length_cons]
    exact Nat.lt_succ_of_le (List.length_filter_le _ _)

/-- An element of a `takeWhile` prefix that survives a filter is still in
the `takeWhile` prefix of the filtered list. -/
theorem mem_takeWhile_filter {p q : PyStr → Bool} :
    ∀ (l : List PyStr) (t : PyStr), t ∈ l.takeWhile p → q t = true →
      t ∈ (l.filter q).takeWhile p := by
  intro l
  induction l with
  | nil =>
    intro t ht _
    simp at ht
  | cons y l' ih =>
    intro t ht hq
    by_cases hp : p y = true
    · rw [List.takeWhile_cons_of_pos hp] at ht
      rcases List.mem_cons.mp ht with h | h
      · subst h
        rw [List.filter_cons, if_pos hq, List.takeWhile_cons_of_pos hp]
        exact List.mem_cons_self t _
      · by_cases hqy : q y = true
        · rw [List.filter_cons, if_pos hqy, List.takeWhile_cons_of_pos hp]
          exact List.mem_cons_of_mem y (ih t h hq)
        · rw [List.filter_cons, if_neg hqy]
          exact ih t h hq
    · rw [List.takeWhile_cons_of_neg hp] at ht
      simp at ht

/-- Source: `find?` over a decomposed list whose earlier entries all fail the
predicate returns the first passing entry. -/
theorem find?_append_cons {α : Type} (p : α → Bool) :
    ∀ (pfx : List α) (a : α) (sfx : List α), (∀ x ∈ pfx, p x = false) → p a = true →
      (pfx ++ a :: sfx).find? p = some a := by
  intro pfx
  induction pfx with
  | nil =>
    intro a sfx _ hp
    simp [List.find?_cons, hp]
  | cons y rest ih =>
    intro a sfx h hp
    have hy := h y (List.mem_cons_self y rest)
    simp only [List.cons_append, List.find?_cons, hy]
    exact ih a sfx (fun x hx => h x (List.mem_cons_of_mem y hx)) hp

/-- The key that the Python `max(counts, key=counts.get)` scan selects
from the counting dict of a nonempty list is the plurality winner with
first-encountered tie-breaking: it occurs in the list, its count is
maximal, and everything occurring before its first occurrence has a
strictly smaller count. -/
theorem pyMaxKey_plurality :
    ∀ (l : List PyStr), l ≠ [] →
      pyMaxKey (countsOf l) ∈ l ∧
      (∀ t ∈ l, l.count t ≤ l.count (pyMaxKey (countsOf l))) ∧
      (∀ t ∈ l.takeWhile (fun s => s ≠ pyMaxKey (countsOf l)),
        l.count t < l.count (pyMaxKey (countsOf l)))
  | [], h => absurd rfl h
  | x :: l', _ => by
    by_cases hrest : l'.filter (fun s => s ≠ x) = []
    · have hall : ∀ a ∈ l', a = x := by
        intro a ha
        have := List.filter_eq_nil_iff.mp hrest a ha
        simpa using this
      have hM : pyMaxKey (countsOf (x :: l')) = x := by
        rw [countsOf_cons, hrest]
        rfl
      rw [hM]
      refine ⟨List.mem_cons_self x l', ?_, ?_⟩
      · intro t ht
        rcases List.mem_cons.mp ht with h | h
        · subst h
          exact le_rfl
        · rw [hall t h]
      · intro t ht
        rw [List.takeWhile_cons_of_neg (by simp)] at ht
        simp at ht
    · obtain ⟨r0, rs, hr⟩ : ∃ r0 rs, l'.filter (fun s => s ≠ x) = r0 :: rs := by
        cases hrc : l'.filter (fun s => s ≠ x) with
        | nil => exact absurd hrc hrest
        | cons a b => exact ⟨a, b, rfl⟩
      obtain ⟨e, d, hed⟩ : ∃ e d, countsOf (l'.filter (fun s => s ≠ x)) = e :: d := by
        rw [hr, countsOf_cons]
        exact ⟨_, _, rfl⟩
      set F := d.foldl (fun best y => if y.2 > best.2 then y else best) e with hF
      have hMkey : pyMaxKey (countsOf (x :: l')) =
          if F.2 > l'.count x + 1 then F.1 else x := by
        rw [countsOf_cons, hed]
        show ((e :: d).foldl (fun best y => if y.2 > best.2 then y else best)
          (x, l'.count x + 1)).1 = _
        rw [foldl_max_step d (x, l'.count x + 1) e, ← hF]
        by_cases hgt : F.2 > l'.count x + 1
        · rw [if_pos (show F.2 > (x, l'.count x + 1).2 from hgt), if_pos hgt]
        · rw [if_neg (show ¬F.2 > (x, l'.count x + 1).2 from hgt), if_neg hgt]
      have hFmem : F ∈ countsOf (l'.filter (fun s => s ≠ x)) := by
        rw [hed]
        obtain ⟨pfx, sfx, hdec, _, _⟩ := foldl_max_decomp d e
        rw [hdec, ← hF]
        exact List.mem_append_right _ (List.mem_cons_self _ _)
      obtain ⟨hF1_rest, hF2⟩ := countsOf_entries (l'.filter (fun s => s ≠ x)) F hFmem
      have hF1x : F.1 ≠ x := by
        have := List.of_mem_filter hF1_rest
        simpa using this
      have htrans : ∀ t, t ≠ x →
          (l'.filter (fun s => s ≠ x)).count t = (x :: l').count t := by
        intro t ht
        rw [List.count_filter (by simp [ht]), List.count_cons_of_ne ht]
      have hcx : (x :: l').count x = l'.count x + 1 := List.count_cons_self x l'
      obtain ⟨hRmem, hRmax, hRtw⟩ := pyMaxKey_plurality (l'.filter (fun s => s ≠ x)) hrest
      have hMr : pyMaxKey (countsOf (l'.filter (fun s => s ≠ x))) = F.1 := by
        rw [hed]
        show (d.foldl (fun best y => if y.2 > best.2 then y else best) e).1 = F.1
        rw [hF]
      rw [hMr] at hRmem hRmax hRtw
      by_cases hgt : F.2 > l'.count x + 1
      · rw [hMkey, if_pos hgt]
        have hstrict : (x :: l').count x < (x :: l').count F.1 := by
          rw [← htrans F.1 hF1x, ← hF2, hcx]
          exact hgt
        refine ⟨List.mem_cons_of_mem x (List.mem_of_mem_filter hRmem), ?_, ?_⟩
        · intro t ht
          by_cases htx : t = x
          · subst htx
            exact le_of_lt hstrict
          · have htr : t ∈ l'.filter (fun s => s ≠ x) :=
              List.mem_filter.mpr ⟨(List.mem_cons.mp ht).resolve_left htx, by simp [htx]⟩
            rw [← htrans t htx, ← htrans F.1 hF1x]
            exact hRmax t htr
        · intro t ht
          rw [List.takeWhile_cons_of_pos (by simp [Ne.symm hF1x])] at ht
          rcases List.mem_cons.mp ht with h | h
          · subst h
            exact hstrict
          · by_cases htx : t = x
            · subst htx
              exact hstrict
            · have h2 : t ∈ (l'.filter (fun s => s ≠ x)).takeWhile (fun s => s ≠ F.1) :=
                mem_takeWhile_filter l' t h (by simp [htx])
              rw [← htrans t htx, ← htrans F.1 hF1x]
              exact hRtw t h2
      · rw [hMkey, if_neg hgt]
        refine ⟨List.mem_cons_self x l', ?_, ?_⟩
        · intro t ht
          by_cases htx : t = x
          · subst htx
            exact le_rfl
          · have htr : t ∈ l'.filter (fun s => s ≠ x) :=
              List.mem_filter.mpr ⟨(List.mem_cons.mp ht).resolve_left htx, by simp [htx]⟩
            calc (x :: l').count t = (l'.filter (fun s => s ≠ x)).count t :=
                  (htrans t htx).symm
              _ ≤ (l'.filter (fun s => s ≠ x)).count F.1 := hRmax t htr
              _ = F.2 := hF2.symm
              _ ≤ l'.count x + 1 := by omega
              _ = (x :: l').count x := hcx.symm
        · intro t ht
          rw [List.takeWhile_cons_of_neg (by simp)] at ht
          simp at ht
  termination_by l => l.length
  decreasing_by
    simp only [List.length_cons]
    exact Nat.lt_succ_of_le (List.length_filter_le _ _)

/-- C7 counterexample: on a snippet list whose only snippet carries no
specialty tag, the claimed fallback to the keyword scan (which would give
"neurology" for a headache complaint) does not happen — the code counts
the untagged snippet as "general" and returns "general". -/
theorem untagged_snippet_breaks_claimed_fallback :
    recommend_specialty headache_assessment [untagged_snippet] = "general".data ∧
    specialty_per_claim headache_assessment [untagged_snippet] = "neurology".data ∧
    recommend_specialty headache_assessment [untagged_snippet] ≠
      specialty_per_claim headache_assessment [untagged_snippet] := by
  refine ⟨by decide, by decide, by decide⟩

/-- C7 amended: on a NONEMPTY snippet list the recommended specialty is
the plurality winner of the specialty tags of the snippets with untagged
snippets counted as "general" (ties broken by first-encountered in
snippet order); only when the snippet list is EMPTY does the code fall
back to scanning the complaint-plus-symptom text against the
specialty-keyword table, first entry with any keyword match winning, and
"general_medicine" if nothing matches. -/
theorem recommend_specialty_amended (assessment : SymptomAssessment)
    (knowledge : List KnowledgeSnippet) :
    (knowledge ≠ [] →
      recommend_specialty assessment knowledge ∈ knowledge.map tag_or_general ∧
      (∀ t ∈ knowledge.map tag_or_general,
        (knowledge.map tag_or_general).count t ≤
          (knowledge.map tag_or_general).count (recommend_specialty assessment knowledge)) ∧
      (∀ t ∈ (knowledge.map tag_or_general).takeWhile
          (fun s => s ≠ recommend_specialty assessment knowledge),
        (knowledge.map tag_or_general).count t <
          (knowledge.map tag_or_general).count (recommend_specialty assessment knowledge))) ∧
    (knowledge = [] →
      ((∀ sk ∈ SPECIALTY_KEYWORDS, specialty_keyword_hit assessment sk = false) →
        recommend_specialty assessment knowledge = "general_medicine".data) ∧
      (∀ pfx sk sfx, SPECIALTY_KEYWORDS = pfx ++ sk :: sfx →
        (∀ sk2 ∈ pfx, specialty_keyword_hit assessment sk2 = false) →
        specialty_keyword_hit assessment sk = true →
        recommend_specialty assessment knowledge = sk.1)) := by
  constructor
  · intro hk
    have hmap : knowledge.map tag_or_general ≠ [] := by
      simpa using hk
    have hre : recommend_specialty assessment knowledge =
        pyMaxKey (countsOf (knowledge.map tag_or_general)) := by
      simp only [recommend_specialty, if_pos hmap]
    rw [hre]
    exact pyMaxKey_plurality (knowledge.map tag_or_general) hmap
  · intro hk
    subst hk
    constructor
    · intro hnone
      have hfind : SPECIALTY_KEYWORDS.find? (specialty_keyword_hit assessment) = none :=
        List.find?_eq_none.mpr (fun sk hsk => by simp [hnone sk hsk])
      simp [recommend_specialty, hfind]
    · intro pfx sk sfx hdec hall hhit
      have hfind : SPECIALTY_KEYWORDS.find? (specialty_keyword_hit assessment) = some sk := by
        rw [hdec]
        exact find?_append_cons (specialty_keyword_hit assessment) pfx sk sfx hall hhit
      simp [recommend_specialty, hfind]

/-- Witness for C7: with one cardiology-tagged snippet the recommendation
is a plurality tag; with no snippets and no keyword match it is
"general_medicine". -/
theorem recommend_specialty_amended_witness :
    recommend_specialty headache_assessment [chest_pain_entry] ∈
      [chest_pain_entry].map tag_or_general ∧
    recommend_specialty fatigue_assessment [] = "general_medicine".data :=
  ⟨((recommend_specialty_amended headache_assessment [chest_pain_entry]).1 (by decide)).1,
   ((recommend_specialty_amended fatigue_assessment []).2 rfl).1 (by decide)⟩
